import Mathlib

/-!
Verification of the `limiter` rate-limiting library.

The development shallowly embeds the two source modules:

* `limiter/base.py` — bucket-name resolution (`_get_bucket`), jitter types and
  the backoff calculator (`_get_sleep_duration`);
* `limiter/limiter.py` — the `Limiter` configuration dataclass with its
  derivation operations (`__call__`, `new`, `_get_new_attrs`, `attrs`,
  `__post_init__`), the admission loops (`limit_rate`, `async_limit_rate`),
  the decorator (`limit_calls`) and the context-manager exit hooks.

Python numbers (`int | float`, the `Tokens`/`Duration` aliases) are embedded
as exact rationals `ℚ`; `randrange` draws and `range` bounds are `ℤ`.
Randomness (`random.choice` over `(add, sub)` and `random.randrange`) is made
explicit: every call of the backoff calculator takes the chosen direction and
the drawn integer as arguments, and the admission loop takes a stream of such
pairs, one per iteration.

The token store (`token_bucket.Limiter` with `MemoryStorage`) is an external
dependency of the repository; it is modelled from spec section 4.2 (see
`Store`).  Store handles owned by `Limiter` configurations are modelled by
`TokenBucketHandle`, where object identity of the Python `TokenBucket` is an
explicit `id` drawn from an allocation counter.
-/

/-- Python exceptions surfaced by the library, carrying their message. -/
inductive PyErr where
  | typeError (msg : String)
  | valueError (msg : String)
  | userError (msg : String)
deriving DecidableEq

/-- The error raised by `_get_bucket` on a name that is neither `bytes` nor
`str`; the spec names this error kind `InvalidBucketName`. -/
def InvalidBucketName : PyErr :=
  PyErr.typeError "Name must be bytes or a bytes-encodable string."

/-- The error raised by `Limiter.__call__` when `rate` or `capacity` appears in
the keyword overrides; the spec names this error kind `ImmutableRateCapacity`. -/
def ImmutableRateCapacity : PyErr :=
  PyErr.valueError "Create a new limiter with the new() method or Limiter class"

/-- `JITTER_DIRECTIONS = (add, sub)`: the two operators `random.choice` picks
from in `_get_sleep_duration`. -/
inductive Dir where
  | add
  | sub
deriving DecidableEq

/-- Apply a chosen jitter direction, `operator.add` or `operator.sub`. -/
def applyDir : Dir → ℚ → ℚ → ℚ
  | Dir.add, a, b => a + b
  | Dir.sub, a, b => a - b

/-- The `Jitter` type alias of `base.py`:
`Jitter = int | bool | range | tuple[int, int] | tuple[int, int, int]`
(`int` and `float` jitter amounts are both embedded as `num`). -/
inductive Jitter where
  | num (n : ℚ)
  | bool (b : Bool)
  | rng (start stop step : ℤ)
  | pair (start stop : ℤ)
  | triple (start stop step : ℤ)
deriving DecidableEq

/-- `WAKE_UP: Final[int] = 0`, the wake threshold of the admission loops. -/
def WAKE_UP : ℚ := 0

/-- `CONSUME_TOKENS: Final[Tokens] = 1`. -/
def CONSUME_TOKENS : ℚ := 1

/-- `RATE: Final[Tokens] = 2`. -/
def RATE : ℚ := 2

/-- `CAPACITY: Final[Tokens] = 3`. -/
def CAPACITY : ℚ := 3

/-- `MS_IN_SEC: Final[UnitsInSecond] = 1000`. -/
def MS_IN_SEC : ℚ := 1000

/-- `DEFAULT_BUCKET: Final[Bucket] = b"default"`, as its UTF-8 byte values. -/
def DEFAULT_BUCKET : List UInt8 := [100, 101, 102, 97, 117, 108, 116]

/-- `DEFAULT_JITTER: Final[Jitter] = False`. -/
def DEFAULT_JITTER : Jitter := Jitter.bool false

/-- `DEFAULT_RANGE: Final[range] = range(50)`, i.e. `range(0, 50, 1)`. -/
def DEFAULT_RANGE : Jitter := Jitter.rng 0 50 1

/-- Truthiness of a Python `range(start, stop, step)` object: nonempty.  A
constructed range object always has `step != 0`. -/
def rangeNonempty (start stop step : ℤ) : Bool :=
  decide ((0 < step ∧ start < stop) ∨ (step < 0 ∧ stop < start))

/-- The `BucketName = Bucket | str` alias of `base.py`.  The `other`
constructor stands for any Python value of a different runtime type (tagged
arbitrarily), as accepted by the untyped call sites of `_get_bucket`. -/
inductive BucketName where
  | bytes (bs : List UInt8)
  | str (s : String)
  | other (tag : ℕ)
deriving DecidableEq

/-- `_get_bucket` of `base.py`: `bytes` are returned unchanged, `str` is
encoded (Python `str.encode()` defaults to UTF-8), anything else raises
`TypeError`. -/
def getBucket : BucketName → Except PyErr (List UInt8)
  | BucketName.bytes bs => Except.ok bs
  | BucketName.str s => Except.ok s.toUTF8.toList
  | BucketName.other _ => Except.error InvalidBucketName

/-- `_get_sleep_duration` of `base.py`.  `dir` is the result of
`choice(JITTER_DIRECTIONS)` and `draw` the result of the (at most one)
`randrange` call of this invocation.  The Python `match` is translated arm by
arm; note that Python `bool` is a subclass of `int`, so both `Jitter.num` and
`Jitter.bool` values are captured by the first arm `case int() | float()`
(with `True`/`False` used arithmetically as `1`/`0`), and the
`case range() | bool() if jitter` arm is reachable only for nonempty `range`
objects.  An empty range falls through every arm to `return duration`. -/
def getSleepDuration (consume tokens rate : ℚ) (jitter : Jitter) (units : ℚ)
    (dir : Dir) (draw : ℤ) : ℚ :=
  let duration : ℚ := (consume - tokens) / rate
  match jitter with
  | Jitter.num n => applyDir dir duration n
  | Jitter.bool b => applyDir dir duration (if b then 1 else 0)
  | Jitter.rng start stop step =>
      if rangeNonempty start stop step then applyDir dir duration ((draw : ℚ) / units)
      else duration
  | Jitter.pair _ _ => applyDir dir duration ((draw : ℚ) / units)
  | Jitter.triple _ _ _ => applyDir dir duration ((draw : ℚ) / units)

/-- Refinement comparison point, from the words of spec section 4.3: for
jitter policy `boolean true`, perturb the base duration by a uniformly random
magnitude drawn from the default bounded range (`DEFAULT_RANGE`, i.e.
`0 <= draw < 50`), scaled by `timeUnit`: the result is
`(consume - tokens) / rate` plus or minus `draw / units`. -/
def specTrueJitterDelay (consume tokens rate units : ℚ) (dir : Dir) (draw : ℤ) : ℚ :=
  applyDir dir ((consume - tokens) / rate) ((draw : ℚ) / units)

/-- Modelled from the spec: the Token Store collaborator (the external
`token_bucket.Limiter` with `MemoryStorage`, not part of this repository),
per spec section 4.2: per-key refillable counters with atomic
check-and-decrement `consume`, non-consuming `get_token_count`, a fixed refill
`rate`, and lazy initialization of unseen keys at full `capacity`.  The clock
is mocked (no elapsed time between operations), as in the spec's own testable
properties, so refill contributes nothing and a denied attempt leaves the
state unchanged. -/
structure Store where
  rate : ℚ
  capacity : ℚ
  tokens : List (List UInt8 × ℚ)
deriving DecidableEq

/-- `limiter._storage.get_token_count(bucket)`: current count of a bucket, a
key never seen reading as full capacity. -/
def Store.getTokenCount (s : Store) (b : List UInt8) : ℚ :=
  match s.tokens.lookup b with
  | some t => t
  | none => s.capacity

/-- Record a new count for a bucket (newest entry shadows older ones). -/
def Store.setTokens (s : Store) (b : List UInt8) (t : ℚ) : Store :=
  { s with tokens := (b, t) :: s.tokens }

/-- `limiter.consume(bucket, amount)`: check-and-decrement; on denial the
state is unchanged. -/
def Store.consume (s : Store) (b : List UInt8) (amount : ℚ) : Bool × Store :=
  let t := s.getTokenCount b
  if amount ≤ t then (true, s.setTokens b (t - amount))
  else (false, s)

/-- Observable trace of one run of an admission loop: whether admission
happened through a successful consume (`consumed = true`) or through the
`sleep_for <= WAKE_UP` break (`consumed = false`), how many consume attempts
were made, the durations actually slept, and the final store state. -/
structure LoopResult where
  consumed : Bool
  attempts : ℕ
  sleeps : List ℚ
  store : Store
deriving DecidableEq

/-- The admission loop of `limit_rate` (`limiter.py`):

`while not lim_consume(bucket, consume): tokens = get_tokens(bucket);
sleep_for = _get_sleep_duration(...); if sleep_for <= WAKE_UP: break;
sleep(sleep_for)` — followed by `yield`.

`rnds` supplies the `(choice, randrange)` randomness of each iteration;
`fuel` bounds the number of iterations (the Python loop is unbounded), with
`none` meaning the loop was still running when fuel ran out.  A returned
`LoopResult` is the state in which the generator reaches `yield`, i.e. in
which the protected operation runs. -/
def limitRateLoop : ℕ → Store → List UInt8 → ℚ → Jitter → ℚ → List (Dir × ℤ) →
    Option LoopResult
  | 0, _, _, _, _, _, _ => none
  | fuel + 1, s, bucket, amount, jitter, units, rnds =>
    let res := s.consume bucket amount
    if res.1 then some ⟨true, 1, [], res.2⟩
    else
      let tokens := res.2.getTokenCount bucket
      let dir := (rnds.headD (Dir.add, 0)).1
      let draw := (rnds.headD (Dir.add, 0)).2
      let sleepFor := getSleepDuration amount tokens res.2.rate jitter units dir draw
      if sleepFor ≤ WAKE_UP then some ⟨false, 1, [], res.2⟩
      else
        match limitRateLoop fuel res.2 bucket amount jitter units rnds.tail with
        | none => none
        | some r => some ⟨r.consumed, r.attempts + 1, sleepFor :: r.sleeps, r.store⟩

/-- The admission loop of `async_limit_rate`: its body is line-for-line the
body of `limit_rate`, differing only in the suspension primitive
(`await asyncio.sleep` instead of `time.sleep`).  The embedding records
requested sleep durations as data, under which the two primitives coincide,
so the suspending loop is the same function. -/
def asyncLimitRateLoop : ℕ → Store → List UInt8 → ℚ → Jitter → ℚ →
    List (Dir × ℤ) → Option LoopResult :=
  limitRateLoop

/-- A call of a function wrapped by the `limit_calls` decorator: run the
admission loop to completion, then invoke the wrapped operation exactly once
(`return func(*args, **kwargs)` inside the `with limit_rate(...)` block) and
return its outcome unchanged.  The result carries the operation's outcome,
the store state after the call, and the number of times the operation was
invoked.  `op` is the outcome of the single invocation of the wrapped
operation (`Except.error` when it raises). -/
def wrappedCall (α : Type) (fuel : ℕ) (s : Store) (bucket : List UInt8)
    (amount : ℚ) (jitter : Jitter) (units : ℚ) (rnds : List (Dir × ℤ))
    (op : Except PyErr α) : Option (Except PyErr α × Store × ℕ) :=
  match limitRateLoop fuel s bucket amount jitter units rnds with
  | none => none
  | some r => some (op, r.store, 1)

/-- `LimiterContextManager.__exit__(self, *args)`: its body is `pass`, so it
performs no state change and returns `None`, which is falsy, so the exception
(if any) is not suppressed.  The returned flag is the context-manager
suppression flag. -/
def contextExit (s : Store) : Store × Bool := (s, false)

/-- `LimiterContextManager.__aexit__(self, *args)`: also `pass`, identical to
`__exit__`. -/
def contextAexit (s : Store) : Store × Bool := (s, false)

/-- A `token_bucket.TokenBucket` handle owned by a `Limiter`: `_get_limiter`
constructs `TokenBucket(rate, capacity, MemoryStorage())`; the `id` field
models Python object identity of the constructed store. -/
structure TokenBucketHandle where
  id : ℕ
  rate : ℚ
  capacity : ℚ
deriving DecidableEq

/-- `_get_limiter(rate, capacity)` of `base.py`: construct a fresh
`TokenBucket` backed by a fresh `MemoryStorage`; `nextId` is the allocation
counter supplying the new object's identity. -/
def getLimiter (rate capacity : ℚ) (nextId : ℕ) : TokenBucketHandle × ℕ :=
  (⟨nextId, rate, capacity⟩, nextId + 1)

/-- The runtime content of the `attrs` property dict of a `Limiter`:
`asdict(self)` with the `limiter` key popped, leaving the six remaining
dataclass fields. -/
structure Attrs where
  rate : ℚ
  capacity : ℚ
  consume : ℚ
  bucket : BucketName
  jitter : Jitter
  units : ℚ
deriving DecidableEq

/-- Keyword overrides (`**attrs`) passed to `Limiter.__call__` or
`Limiter.new`: each dataclass field is either absent or supplied.  (A
`limiter` key is not modelled: through `__call__` it would collide with the
explicit `limiter=self.limiter` argument and raise, and no claim exercises
it.) -/
structure CallAttrs where
  rate : Option ℚ
  capacity : Option ℚ
  consume : Option ℚ
  bucket : Option BucketName
  jitter : Option Jitter
  units : Option ℚ
deriving DecidableEq

/-- Python dict merge `new_attrs |= attrs`: every key present in the
overrides replaces the corresponding entry, with no truthiness check. -/
def Attrs.merge (a : Attrs) (o : CallAttrs) : Attrs :=
  { rate := o.rate.getD a.rate
    capacity := o.capacity.getD a.capacity
    consume := o.consume.getD a.consume
    bucket := o.bucket.getD a.bucket
    jitter := o.jitter.getD a.jitter
    units := o.units.getD a.units }

/-- The `Limiter` dataclass of `limiter.py`, in its state after
`__post_init__`: `consume` has been defaulted to `CONSUME_TOKENS` if it was
`None`, and `limiter` holds a `TokenBucket` handle (constructed by
`_get_limiter(rate, capacity)` if none was supplied). -/
structure Limiter where
  rate : ℚ
  capacity : ℚ
  consume : ℚ
  bucket : BucketName
  limiter : TokenBucketHandle
  jitter : Jitter
  units : ℚ
deriving DecidableEq

/-- The `Limiter(...)` dataclass constructor together with `__post_init__`:
if `limiter is None` a fresh `TokenBucket` is constructed from the allocation
counter `nextId`; if `consume is None` it becomes `CONSUME_TOKENS`. -/
def mkLimiter (rate capacity : ℚ) (consume : Option ℚ) (bucket : BucketName)
    (limiter : Option TokenBucketHandle) (jitter : Jitter) (units : ℚ)
    (nextId : ℕ) : Limiter × ℕ :=
  match limiter with
  | some h => (⟨rate, capacity, consume.getD CONSUME_TOKENS, bucket, h, jitter, units⟩, nextId)
  | none =>
    let p := getLimiter rate capacity nextId
    (⟨rate, capacity, consume.getD CONSUME_TOKENS, bucket, p.1, jitter, units⟩, p.2)

/-- `Limiter(**new_attrs, limiter=handle)` as used in `Limiter.__call__`: all
six attrs are supplied (with a numeric `consume`) plus an existing store
handle, so no allocation happens. -/
def mkLimiterKnown (a : Attrs) (h : TokenBucketHandle) : Limiter :=
  (mkLimiter a.rate a.capacity (some a.consume) a.bucket (some h) a.jitter a.units 0).1

/-- The `attrs` property of `Limiter`. -/
def Limiter.attrs (l : Limiter) : Attrs :=
  ⟨l.rate, l.capacity, l.consume, l.bucket, l.jitter, l.units⟩

/-- Python truthiness of a number: `0` and `0.0` are falsy. -/
def truthyNum (q : ℚ) : Bool := decide (q ≠ 0)

/-- Python truthiness of a bucket name: empty `bytes`/`str` are falsy;
arbitrary other objects are truthy by default. -/
def BucketName.truthy : BucketName → Bool
  | BucketName.bytes bs => !bs.isEmpty
  | BucketName.str s => !s.isEmpty
  | BucketName.other _ => true

/-- Python truthiness of a `Jitter` value: `0`, `0.0`, `False` and an empty
`range` are falsy; `True` and (always nonempty) 2- and 3-tuples are truthy. -/
def Jitter.truthy : Jitter → Bool
  | Jitter.num n => truthyNum n
  | Jitter.bool b => b
  | Jitter.rng start stop step => rangeNonempty start stop step
  | Jitter.pair _ _ => true
  | Jitter.triple _ _ _ => true

/-- The guarded override of one field in `_get_new_attrs` — Python
`if value: new_attrs[key] = value` — replacing the current value only when an
override was supplied and is truthy. -/
def overrideIfTruthy {α : Type} (truthy : α → Bool) (cur : α) : Option α → α
  | some v => if truthy v then v else cur
  | none => cur

/-- `Limiter._get_new_attrs(self, attrs, bucket, consume, jitter, units)`:
start from `self.attrs`, overwrite `consume`, `bucket`, `jitter`, `units`
only when the supplied value is truthy (`if consume: ...` etc., so `None` and
falsy values alike are skipped), then merge the keyword overrides
unconditionally (`new_attrs |= attrs`). -/
def Limiter.getNewAttrs (self : Limiter) (attrs : CallAttrs)
    (bucket : Option BucketName) (consume : Option ℚ) (jitter : Option Jitter)
    (units : Option ℚ) : Attrs :=
  let n0 := self.attrs
  let n1 := match consume with
    | some c => if truthyNum c then { n0 with consume := c } else n0
    | none => n0
  let n2 := match bucket with
    | some b => if b.truthy then { n1 with bucket := b } else n1
    | none => n1
  let n3 := match jitter with
    | some j => if j.truthy then { n2 with jitter := j } else n2
    | none => n2
  let n4 := match units with
    | some u => if truthyNum u then { n3 with units := u } else n3
    | none => n3
  n4.merge attrs

/-- The derivation path of `Limiter.__call__(self, func_or_consume, bucket,
jitter, units, **attrs)`, reached when the first argument is not callable
(the callable branch is the decorator, modelled by `wrappedCall`; the
`TypeError` branch for a truthy non-numeric first argument is unreachable
once the first argument is `Tokens | None`): if `rate` or `capacity` appears
among the keyword overrides, raise; otherwise build the new attrs and return
`Limiter(**new_attrs, limiter=self.limiter)`, sharing the store handle. -/
def Limiter.call (self : Limiter) (funcOrConsume : Option ℚ)
    (bucket : Option BucketName) (jitter : Option Jitter) (units : Option ℚ)
    (attrs : CallAttrs) : Except PyErr Limiter :=
  if attrs.rate.isSome || attrs.capacity.isSome then
    Except.error ImmutableRateCapacity
  else
    Except.ok
      (mkLimiterKnown (self.getNewAttrs attrs bucket funcOrConsume jitter units)
        self.limiter)

/-- `Limiter.new(self, **attrs)`: `new_attrs = self.attrs | attrs` (plain
dict merge, no truthiness check, and no `limiter` key since `attrs` pops it),
then `Limiter(**new_attrs)` — so `__post_init__` always constructs a fresh
`TokenBucket` from the allocation counter. -/
def Limiter.new (self : Limiter) (attrs : CallAttrs) (nextId : ℕ) : Limiter × ℕ :=
  let a := self.attrs.merge attrs
  mkLimiter a.rate a.capacity (some a.consume) a.bucket none a.jitter a.units nextId

/-- Unfolding of `Store.consume` as a single conditional. -/
theorem Store.consume_def (s : Store) (b : List UInt8) (amount : ℚ) :
    s.consume b amount =
      if amount ≤ s.getTokenCount b then (true, s.setTokens b (s.getTokenCount b - amount))
      else (false, s) := rfl

/-- Reading a bucket just written returns the written count. -/
theorem Store.getTokenCount_setTokens (s : Store) (b : List UInt8) (t : ℚ) :
    (s.setTokens b t).getTokenCount b = t := by
  simp [Store.setTokens, Store.getTokenCount, List.lookup]

/-- A denied consume leaves the store unchanged. -/
theorem Store.consume_snd_of_fail (s : Store) (b : List UInt8) (amount : ℚ)
    (h : (s.consume b amount).1 = false) : (s.consume b amount).2 = s := by
  rw [Store.consume_def] at h ⊢
  split at h
  · simp at h
  · rename_i hn
    rw [if_neg hn]

/-- A consume succeeds exactly when enough tokens are available. -/
theorem Store.consume_fst (s : Store) (b : List UInt8) (amount : ℚ) :
    (s.consume b amount).1 = true ↔ amount ≤ s.getTokenCount b := by
  rw [Store.consume_def]
  split <;> simp_all

/-- A successful consume decrements the bucket by the consumed amount. -/
theorem Store.consume_snd_of_success (s : Store) (b : List UInt8) (amount : ℚ)
    (h : (s.consume b amount).1 = true) :
    (s.consume b amount).2 = s.setTokens b (s.getTokenCount b - amount) := by
  rw [Store.consume_def] at h ⊢
  split at h <;> simp_all

/-- Store-level characterization of a terminating admission-loop run: either
admission came from a successful consume of `amount` (possible only when the
very first attempt succeeds, since a denied attempt leaves the mocked-clock
store unchanged), or the loop broke out on a non-positive computed delay and
the store is untouched. -/
theorem limitRateLoop_store_spec (fuel : ℕ) (s : Store) (bucket : List UInt8)
    (amount : ℚ) (jitter : Jitter) (units : ℚ) (rnds : List (Dir × ℤ))
    (r : LoopResult) (h : limitRateLoop fuel s bucket amount jitter units rnds = some r) :
    (r.consumed = true ∧ amount ≤ s.getTokenCount bucket ∧
      r.store = s.setTokens bucket (s.getTokenCount bucket - amount)) ∨
    (r.consumed = false ∧ r.store = s) := by
  induction fuel generalizing s rnds r with
  | zero => simp [limitRateLoop] at h
  | succ n ih =>
    rw [limitRateLoop] at h
    cases hb : (s.consume bucket amount).1 with
    | true =>
      rw [hb] at h
      simp only [if_true] at h
      have hle : amount ≤ s.getTokenCount bucket := (Store.consume_fst s bucket amount).1 hb
      have hsnd := Store.consume_snd_of_success s bucket amount hb
      simp only [Option.some.injEq] at h
      left
      rw [← h]
      exact ⟨rfl, hle, hsnd⟩
    | false =>
      rw [hb] at h
      simp only [Bool.false_eq_true, if_false] at h
      rw [Store.consume_snd_of_fail s bucket amount hb] at h
      split at h
      · simp only [Option.some.injEq] at h
        right
        rw [← h]
        exact ⟨rfl, rfl⟩
      · rcases hrec : limitRateLoop n s bucket amount jitter units rnds.tail with _ | r2
        · rw [hrec] at h
          simp at h
        · rw [hrec] at h
          simp only [Option.some.injEq] at h
          rcases ih s rnds.tail r2 hrec with ⟨h1, h2, h3⟩ | ⟨h1, h2⟩
          · left
            rw [← h]
            exact ⟨h1, h2, h3⟩
          · right
            rw [← h]
            exact ⟨h1, h2⟩

/-- C1 (amended): in both the blocking and the suspending admission loop, when
`tryConsume` denies and the backoff calculator returns a delay at or below the
wake threshold `WAKE_UP = 0`, the loop does NOT re-attempt consumption: it
breaks out immediately — no sleep is performed, no further consume attempt is
made, and the generator reaches `yield` (admission) with the store unchanged,
i.e. without any token having been consumed. -/
theorem c1_nonpositive_delay_breaks_loop (fuel : ℕ) (s : Store) (bucket : List UInt8)
    (amount : ℚ) (jitter : Jitter) (units : ℚ) (dir : Dir) (draw : ℤ)
    (rnds : List (Dir × ℤ))
    (hfail : (s.consume bucket amount).1 = false)
    (hneg : getSleepDuration amount (s.getTokenCount bucket) s.rate jitter units dir draw ≤
      WAKE_UP) :
    limitRateLoop (fuel + 1) s bucket amount jitter units ((dir, draw) :: rnds) =
      some ⟨false, 1, [], s⟩ ∧
    asyncLimitRateLoop (fuel + 1) s bucket amount jitter units ((dir, draw) :: rnds) =
      some ⟨false, 1, [], s⟩ := by
  have h1 : limitRateLoop (fuel + 1) s bucket amount jitter units ((dir, draw) :: rnds) =
      some ⟨false, 1, [], s⟩ := by
    rw [limitRateLoop]
    simp only [hfail, Bool.false_eq_true, if_false,
      Store.consume_snd_of_fail s bucket amount hfail, List.headD_cons]
    rw [if_pos hneg]
  exact ⟨h1, h1⟩

/-- C1 witness: a concrete denied attempt with a negative computed delay
(fixed jitter `7` subtracted from the base duration), on which the amended
theorem evaluates: the loop stops after exactly one attempt, sleeping zero
times. -/
theorem c1_nonpositive_delay_breaks_loop_witness :
    ((Store.consume ⟨2, 3, [(DEFAULT_BUCKET, 0)]⟩ DEFAULT_BUCKET 1).1 = false) ∧
    (getSleepDuration 1
        (Store.getTokenCount ⟨2, 3, [(DEFAULT_BUCKET, 0)]⟩ DEFAULT_BUCKET)
        (Store.rate ⟨2, 3, [(DEFAULT_BUCKET, 0)]⟩) (Jitter.num 7) 1000 Dir.sub 3 ≤ WAKE_UP) ∧
    (limitRateLoop 5 ⟨2, 3, [(DEFAULT_BUCKET, 0)]⟩ DEFAULT_BUCKET 1 (Jitter.num 7) 1000
        ((Dir.sub, 3) :: []) =
      some ⟨false, 1, [], ⟨2, 3, [(DEFAULT_BUCKET, 0)]⟩⟩ ∧
     asyncLimitRateLoop 5 ⟨2, 3, [(DEFAULT_BUCKET, 0)]⟩ DEFAULT_BUCKET 1 (Jitter.num 7) 1000
        ((Dir.sub, 3) :: []) =
      some ⟨false, 1, [], ⟨2, 3, [(DEFAULT_BUCKET, 0)]⟩⟩) := by
  have p1 : (Store.consume ⟨2, 3, [(DEFAULT_BUCKET, 0)]⟩ DEFAULT_BUCKET 1).1 = false := by
    norm_num [Store.consume, Store.getTokenCount, List.lookup]
  have p2 : getSleepDuration 1
      (Store.getTokenCount ⟨2, 3, [(DEFAULT_BUCKET, 0)]⟩ DEFAULT_BUCKET)
      (Store.rate ⟨2, 3, [(DEFAULT_BUCKET, 0)]⟩) (Jitter.num 7) 1000 Dir.sub 3 ≤ WAKE_UP := by
    norm_num [getSleepDuration, Store.getTokenCount, List.lookup, applyDir, WAKE_UP]
  exact ⟨p1, p2,
    c1_nonpositive_delay_breaks_loop 4 ⟨2, 3, [(DEFAULT_BUCKET, 0)]⟩ DEFAULT_BUCKET 1
      (Jitter.num 7) 1000 Dir.sub 3 [] p1 p2⟩

/-- C1 counterexample: at a concrete input where the first consume is denied
and the computed delay is negative (base duration `1/2`, fixed jitter `10`
subtracted), both loop variants terminate after a single consume attempt with
no sleeps and nothing consumed — refuting the claim that a non-positive delay
makes the loop re-attempt consumption (and never stops it from retrying). -/
theorem c1_counterexample :
    limitRateLoop 5 ⟨2, 3, [(DEFAULT_BUCKET, 0)]⟩ DEFAULT_BUCKET 1 (Jitter.num 10) 1000
        [(Dir.sub, 0)] =
      some ⟨false, 1, [], ⟨2, 3, [(DEFAULT_BUCKET, 0)]⟩⟩ ∧
    asyncLimitRateLoop 5 ⟨2, 3, [(DEFAULT_BUCKET, 0)]⟩ DEFAULT_BUCKET 1 (Jitter.num 10) 1000
        [(Dir.sub, 0)] =
      some ⟨false, 1, [], ⟨2, 3, [(DEFAULT_BUCKET, 0)]⟩⟩ := by
  constructor <;>
    norm_num [limitRateLoop, asyncLimitRateLoop, Store.consume, Store.getTokenCount,
      getSleepDuration, applyDir, WAKE_UP, List.lookup]

/-- C2 (amended): whenever an admission loop run terminates (in either
variant, and hence for the context managers and the decorator built on them),
either admission came from exactly one successful `tryConsume` — the bucket
ends with exactly `amount` fewer tokens than it started with — or the loop
broke out on a non-positive computed delay, in which case the protected
operation runs with NO successful consume and the store unchanged. -/
theorem c2_admission_consumes_once_or_not_at_all (fuel : ℕ) (s : Store)
    (bucket : List UInt8) (amount : ℚ) (jitter : Jitter) (units : ℚ)
    (rnds : List (Dir × ℤ)) (r : LoopResult)
    (h : limitRateLoop fuel s bucket amount jitter units rnds = some r) :
    asyncLimitRateLoop fuel s bucket amount jitter units rnds = some r ∧
    ((r.consumed = true ∧ amount ≤ s.getTokenCount bucket ∧
        r.store.getTokenCount bucket = s.getTokenCount bucket - amount) ∨
      (r.consumed = false ∧ r.store = s)) := by
  refine ⟨h, ?_⟩
  rcases limitRateLoop_store_spec fuel s bucket amount jitter units rnds r h with
    ⟨h1, h2, h3⟩ | ⟨h1, h2⟩
  · left
    exact ⟨h1, h2, by rw [h3, Store.getTokenCount_setTokens]⟩
  · right
    exact ⟨h1, h2⟩

/-- C2 witness: a concrete successful admission on a fresh store (lazy
initialization at capacity `3`): one consume attempt succeeds and the bucket
ends with `3 - 1 = 2` tokens. -/
theorem c2_admission_consumes_once_or_not_at_all_witness :
    (limitRateLoop 1 ⟨2, 3, []⟩ DEFAULT_BUCKET 1 DEFAULT_JITTER 1000 [] =
      some ⟨true, 1, [], ⟨2, 3, [(DEFAULT_BUCKET, 2)]⟩⟩) ∧
    (asyncLimitRateLoop 1 ⟨2, 3, []⟩ DEFAULT_BUCKET 1 DEFAULT_JITTER 1000 [] =
        some ⟨true, 1, [], ⟨2, 3, [(DEFAULT_BUCKET, 2)]⟩⟩ ∧
      (((⟨true, 1, [], ⟨2, 3, [(DEFAULT_BUCKET, 2)]⟩⟩ : LoopResult).consumed = true ∧
          (1 : ℚ) ≤ Store.getTokenCount ⟨2, 3, []⟩ DEFAULT_BUCKET ∧
          Store.getTokenCount (⟨2, 3, [(DEFAULT_BUCKET, 2)]⟩ : Store) DEFAULT_BUCKET =
            Store.getTokenCount ⟨2, 3, []⟩ DEFAULT_BUCKET - 1) ∨
        ((⟨true, 1, [], ⟨2, 3, [(DEFAULT_BUCKET, 2)]⟩⟩ : LoopResult).consumed = false ∧
          (⟨true, 1, [], ⟨2, 3, [(DEFAULT_BUCKET, 2)]⟩⟩ : LoopResult).store = ⟨2, 3, []⟩))) := by
  have p1 : limitRateLoop 1 ⟨2, 3, []⟩ DEFAULT_BUCKET 1 DEFAULT_JITTER 1000 [] =
      some ⟨true, 1, [], ⟨2, 3, [(DEFAULT_BUCKET, 2)]⟩⟩ := by
    norm_num [limitRateLoop, Store.consume, Store.setTokens, Store.getTokenCount, List.lookup]
  exact ⟨p1, c2_admission_consumes_once_or_not_at_all 1 ⟨2, 3, []⟩ DEFAULT_BUCKET 1
    DEFAULT_JITTER 1000 [] ⟨true, 1, [], ⟨2, 3, [(DEFAULT_BUCKET, 2)]⟩⟩ p1⟩

/-- C2 counterexample: a concrete wrapped call in which the protected
operation runs (returning `42`, invoked once) although NO successful consume
preceded it: the first attempt was denied (only `1/2` token available), the
jittered delay was negative, the loop broke, and the store is unchanged —
refuting "the gate never runs the protected operation without exactly one
preceding successful tryConsume". -/
theorem c2_counterexample :
    wrappedCall ℕ 5 ⟨2, 3, [(DEFAULT_BUCKET, 1/2)]⟩ DEFAULT_BUCKET 1 (Jitter.num 100) 1000
        [(Dir.sub, 1)] (Except.ok 42) =
      some (Except.ok 42, ⟨2, 3, [(DEFAULT_BUCKET, 1/2)]⟩, 1) := by
  norm_num [wrappedCall, limitRateLoop, Store.consume, Store.getTokenCount, getSleepDuration,
    applyDir, WAKE_UP, List.lookup]

/-- C3: because Python `bool` is a subclass of `int`, the value `True` is
captured by the first match arm `case int() | float()` of
`_get_sleep_duration`, so jitter policy `boolean true` perturbs the base
duration by the constant `True == 1` second — at base duration `1` (consume
`1`, tokens `0`, rate `1`, units `1000`) the code returns `0` or `2` —
whereas the spec behaviour (perturb by `randrange(0, 50) / units`, the dead
`jitter = DEFAULT_RANGE` branch of the source) never equals the code's
output for any draw of the default range. -/
theorem c3_bool_true_jitter_acts_as_constant_one (dir : Dir) (draw : ℤ)
    (h0 : 0 ≤ draw) (h1 : draw < 50) :
    (getSleepDuration 1 0 1 (Jitter.bool true) 1000 dir draw = 0 ∨
      getSleepDuration 1 0 1 (Jitter.bool true) 1000 dir draw = 2) ∧
    specTrueJitterDelay 1 0 1 1000 dir draw ≠
      getSleepDuration 1 0 1 (Jitter.bool true) 1000 dir draw := by
  have hq0 : (0 : ℚ) ≤ (draw : ℚ) := by exact_mod_cast h0
  have hq1 : ((draw : ℚ)) < 50 := by exact_mod_cast h1
  cases dir with
  | add =>
    constructor
    · right
      norm_num [getSleepDuration, applyDir]
    · intro heq
      simp only [getSleepDuration, specTrueJitterDelay, applyDir] at heq
      norm_num at heq
      linarith
  | sub =>
    constructor
    · left
      norm_num [getSleepDuration, applyDir]
    · intro heq
      simp only [getSleepDuration, specTrueJitterDelay, applyDir] at heq
      norm_num at heq
      linarith

/-- C3 witness: the divergence evaluated at the concrete draw `0` with
direction `add`: the code yields `2`, the spec-modelled calculator yields
`1`. -/
theorem c3_bool_true_jitter_acts_as_constant_one_witness :
    ((0 : ℤ) ≤ 0) ∧ ((0 : ℤ) < 50) ∧
    ((getSleepDuration 1 0 1 (Jitter.bool true) 1000 Dir.add 0 = 0 ∨
       getSleepDuration 1 0 1 (Jitter.bool true) 1000 Dir.add 0 = 2) ∧
      specTrueJitterDelay 1 0 1 1000 Dir.add 0 ≠
        getSleepDuration 1 0 1 (Jitter.bool true) 1000 Dir.add 0) :=
  ⟨by norm_num, by norm_num,
    c3_bool_true_jitter_acts_as_constant_one Dir.add 0 (by norm_num) (by norm_num)⟩

/-- C6: for the default jitter policy (`DEFAULT_JITTER = False`, i.e. "none"),
the backoff calculator returns exactly the base duration
`(consume - tokens) / rate`, whatever direction is drawn — `False` is caught
by the `case int() | float()` arm and used arithmetically as `0`.  (In this
exact-rational embedding every output of the calculator is finite by
construction, covering the finiteness part of the claim.) -/
theorem c6_no_jitter_returns_exact_base_duration (consume tokens rate units : ℚ)
    (dir : Dir) (draw : ℤ) :
    getSleepDuration consume tokens rate DEFAULT_JITTER units dir draw =
      (consume - tokens) / rate := by
  cases dir <;> simp [getSleepDuration, DEFAULT_JITTER, applyDir]

/-- C7: the bucket-name resolver returns byte inputs unchanged, encodes text
deterministically to its UTF-8 bytes, and rejects any other input type with
the `InvalidBucketName` error (`TypeError` in the source); it is a pure
function. -/
theorem c7_bucket_resolver_contract (bs : List UInt8) (s : String) (tag : ℕ) :
    getBucket (BucketName.bytes bs) = Except.ok bs ∧
    getBucket (BucketName.str s) = Except.ok s.toUTF8.toList ∧
    getBucket (BucketName.other tag) = Except.error InvalidBucketName :=
  ⟨rfl, rfl, rfl⟩

/-- C4: any derivation through `Limiter.__call__` that produces a Limiter at
all (i.e. does not raise) returns one holding the very same `TokenBucket`
handle as the original — `Limiter(**new_attrs, limiter=self.limiter)` —
and since `rate`/`capacity` overrides are rejected on this path, no new
Token Store is ever constructed by it. -/
theorem c4_call_derivation_shares_token_store (self : Limiter)
    (funcOrConsume : Option ℚ) (bucket : Option BucketName) (jitter : Option Jitter)
    (units : Option ℚ) (attrs : CallAttrs) (l : Limiter)
    (h : self.call funcOrConsume bucket jitter units attrs = Except.ok l) :
    l.limiter = self.limiter := by
  unfold Limiter.call at h
  split at h
  · exact absurd h (by simp)
  · simp only [Except.ok.injEq] at h
    rw [← h]
    rfl

/-- C4 witness: a concrete derivation overriding only `consume` keeps the
store handle of the original limiter. -/
theorem c4_call_derivation_shares_token_store_witness :
    (Limiter.call ⟨2, 3, 1, BucketName.bytes DEFAULT_BUCKET, ⟨0, 2, 3⟩, Jitter.bool false, 1000⟩
        (some 5) none none none ⟨none, none, none, none, none, none⟩ =
      Except.ok ⟨2, 3, 5, BucketName.bytes DEFAULT_BUCKET, ⟨0, 2, 3⟩, Jitter.bool false, 1000⟩) ∧
    Limiter.limiter ⟨2, 3, 5, BucketName.bytes DEFAULT_BUCKET, ⟨0, 2, 3⟩, Jitter.bool false, 1000⟩ =
      Limiter.limiter ⟨2, 3, 1, BucketName.bytes DEFAULT_BUCKET, ⟨0, 2, 3⟩, Jitter.bool false, 1000⟩ := by
  have p1 : Limiter.call ⟨2, 3, 1, BucketName.bytes DEFAULT_BUCKET, ⟨0, 2, 3⟩, Jitter.bool false, 1000⟩
      (some 5) none none none ⟨none, none, none, none, none, none⟩ =
      Except.ok ⟨2, 3, 5, BucketName.bytes DEFAULT_BUCKET, ⟨0, 2, 3⟩, Jitter.bool false, 1000⟩ := by
    norm_num [Limiter.call, Limiter.getNewAttrs, Limiter.attrs, Attrs.merge, mkLimiterKnown,
      mkLimiter, truthyNum, CONSUME_TOKENS]
  exact ⟨p1, c4_call_derivation_shares_token_store _ (some 5) none none none _ _ p1⟩

/-- C5: passing `rate` or `capacity` among the keyword overrides of the
derivation path of `Limiter.__call__` always raises (a `ValueError` in the
source, the spec's `ImmutableRateCapacity`), and no derived Limiter is
produced. -/
theorem c5_rate_capacity_override_raises (self : Limiter) (funcOrConsume : Option ℚ)
    (bucket : Option BucketName) (jitter : Option Jitter) (units : Option ℚ)
    (attrs : CallAttrs)
    (h : attrs.rate.isSome = true ∨ attrs.capacity.isSome = true) :
    self.call funcOrConsume bucket jitter units attrs =
      Except.error ImmutableRateCapacity := by
  unfold Limiter.call
  rcases h with h | h <;> simp [h]

/-- C5 witness: a concrete call overriding `rate` through the keyword
overrides fails with `ImmutableRateCapacity`. -/
theorem c5_rate_capacity_override_raises_witness :
    ((⟨some 9, none, none, none, none, none⟩ : CallAttrs).rate.isSome = true ∨
      (⟨some 9, none, none, none, none, none⟩ : CallAttrs).capacity.isSome = true) ∧
    Limiter.call ⟨2, 3, 1, BucketName.bytes DEFAULT_BUCKET, ⟨0, 2, 3⟩, Jitter.bool false, 1000⟩
        none none none none ⟨some 9, none, none, none, none, none⟩ =
      Except.error ImmutableRateCapacity :=
  ⟨Or.inl rfl,
    c5_rate_capacity_override_raises _ none none none none _ (Or.inl rfl)⟩

/-- Field-level unfolding of `Limiter._get_new_attrs`: keyword overrides
always replace, while the named `consume`/`bucket`/`jitter`/`units`
parameters replace only when supplied and truthy. -/
theorem Limiter.getNewAttrs_eq (self : Limiter) (attrs : CallAttrs)
    (bucket : Option BucketName) (consume : Option ℚ) (jitter : Option Jitter)
    (units : Option ℚ) :
    self.getNewAttrs attrs bucket consume jitter units =
      { rate := attrs.rate.getD self.rate
        capacity := attrs.capacity.getD self.capacity
        consume := attrs.consume.getD (overrideIfTruthy truthyNum self.consume consume)
        bucket := attrs.bucket.getD (overrideIfTruthy BucketName.truthy self.bucket bucket)
        jitter := attrs.jitter.getD (overrideIfTruthy Jitter.truthy self.jitter jitter)
        units := attrs.units.getD (overrideIfTruthy truthyNum self.units units) } := by
  rcases consume with _ | c <;> rcases bucket with _ | b <;> rcases jitter with _ | j <;>
    rcases units with _ | u <;>
      simp only [Limiter.getNewAttrs, Limiter.attrs, Attrs.merge, overrideIfTruthy] <;>
        split_ifs <;> rfl

/-- C9 (amended): derivation never mutates the original (it is a pure
function of the original value) and inherits every field that is not
replaced; keyword overrides (`**attrs`, and every override given to
`Limiter.new`) always replace their field, but the named
`consume`/`bucket`/`jitter`/`units` parameters of `Limiter.__call__` replace
their field only when the supplied value is truthy — an explicitly supplied
falsy value (`0`, `False`, empty name) is ignored and the field inherited. -/
theorem c9_derivation_override_semantics (self : Limiter) (attrs : CallAttrs)
    (bucket : Option BucketName) (consume : Option ℚ) (jitter : Option Jitter)
    (units : Option ℚ) (l : Limiter)
    (hr : attrs.rate = none) (hcap : attrs.capacity = none)
    (h : self.call consume bucket jitter units attrs = Except.ok l) :
    (l.rate = self.rate ∧ l.capacity = self.capacity ∧ l.limiter = self.limiter) ∧
    l.consume = attrs.consume.getD (overrideIfTruthy truthyNum self.consume consume) ∧
    l.bucket = attrs.bucket.getD (overrideIfTruthy BucketName.truthy self.bucket bucket) ∧
    l.jitter = attrs.jitter.getD (overrideIfTruthy Jitter.truthy self.jitter jitter) ∧
    l.units = attrs.units.getD (overrideIfTruthy truthyNum self.units units) ∧
    (∀ (attrs2 : CallAttrs) (nextId : ℕ),
      (self.new attrs2 nextId).1.rate = attrs2.rate.getD self.rate ∧
      (self.new attrs2 nextId).1.capacity = attrs2.capacity.getD self.capacity ∧
      (self.new attrs2 nextId).1.consume = attrs2.consume.getD self.consume ∧
      (self.new attrs2 nextId).1.bucket = attrs2.bucket.getD self.bucket ∧
      (self.new attrs2 nextId).1.jitter = attrs2.jitter.getD self.jitter ∧
      (self.new attrs2 nextId).1.units = attrs2.units.getD self.units) := by
  unfold Limiter.call at h
  rw [hr, hcap] at h
  simp only [Option.isSome_none, Bool.or_self, Bool.false_eq_true, if_false,
    Except.ok.injEq] at h
  rw [Limiter.getNewAttrs_eq] at h
  subst h
  refine ⟨⟨?_, ?_, rfl⟩, ?_, ?_, ?_, ?_,
    fun attrs2 nextId => ⟨rfl, rfl, rfl, rfl, rfl, rfl⟩⟩
  · show attrs.rate.getD self.rate = self.rate
    rw [hr]
    rfl
  · show attrs.capacity.getD self.capacity = self.capacity
    rw [hcap]
    rfl
  · rfl
  · rfl
  · rfl
  · rfl

/-- C9 witness: overriding `consume` through the keyword overrides replaces
it, and rate, capacity and the store handle are inherited. -/
theorem c9_derivation_override_semantics_witness :
    ((⟨none, none, some 7, none, none, none⟩ : CallAttrs).rate = none) ∧
    ((⟨none, none, some 7, none, none, none⟩ : CallAttrs).capacity = none) ∧
    (Limiter.call ⟨2, 3, 1, BucketName.bytes DEFAULT_BUCKET, ⟨0, 2, 3⟩, Jitter.num 5, 1000⟩
        none none none none ⟨none, none, some 7, none, none, none⟩ =
      Except.ok ⟨2, 3, 7, BucketName.bytes DEFAULT_BUCKET, ⟨0, 2, 3⟩, Jitter.num 5, 1000⟩) ∧
    (Limiter.rate ⟨2, 3, 7, BucketName.bytes DEFAULT_BUCKET, ⟨0, 2, 3⟩, Jitter.num 5, 1000⟩ =
        Limiter.rate ⟨2, 3, 1, BucketName.bytes DEFAULT_BUCKET, ⟨0, 2, 3⟩, Jitter.num 5, 1000⟩ ∧
      Limiter.capacity ⟨2, 3, 7, BucketName.bytes DEFAULT_BUCKET, ⟨0, 2, 3⟩, Jitter.num 5, 1000⟩ =
        Limiter.capacity ⟨2, 3, 1, BucketName.bytes DEFAULT_BUCKET, ⟨0, 2, 3⟩, Jitter.num 5, 1000⟩ ∧
      Limiter.limiter ⟨2, 3, 7, BucketName.bytes DEFAULT_BUCKET, ⟨0, 2, 3⟩, Jitter.num 5, 1000⟩ =
        Limiter.limiter ⟨2, 3, 1, BucketName.bytes DEFAULT_BUCKET, ⟨0, 2, 3⟩, Jitter.num 5, 1000⟩) := by
  have p3 : Limiter.call ⟨2, 3, 1, BucketName.bytes DEFAULT_BUCKET, ⟨0, 2, 3⟩, Jitter.num 5, 1000⟩
      none none none none ⟨none, none, some 7, none, none, none⟩ =
      Except.ok ⟨2, 3, 7, BucketName.bytes DEFAULT_BUCKET, ⟨0, 2, 3⟩, Jitter.num 5, 1000⟩ := by
    norm_num [Limiter.call, Limiter.getNewAttrs, Limiter.attrs, Attrs.merge, mkLimiterKnown,
      mkLimiter, CONSUME_TOKENS]
  exact ⟨rfl, rfl, p3,
    (c9_derivation_override_semantics _ _ none none none none _ rfl rfl p3).1⟩

/-- C9 counterexample: explicitly supplying `jitter=False` to
`Limiter.__call__` does NOT replace the field — the derived limiter keeps
the original jitter policy `5`, refuting "each explicitly-supplied field
replaces the current one". -/
theorem c9_counterexample :
    Limiter.call ⟨2, 3, 1, BucketName.bytes DEFAULT_BUCKET, ⟨0, 2, 3⟩, Jitter.num 5, 1000⟩
        none none (some (Jitter.bool false)) none ⟨none, none, none, none, none, none⟩ =
      Except.ok ⟨2, 3, 1, BucketName.bytes DEFAULT_BUCKET, ⟨0, 2, 3⟩, Jitter.num 5, 1000⟩ ∧
    Jitter.num 5 ≠ Jitter.bool false := by
  constructor
  · norm_num [Limiter.call, Limiter.getNewAttrs, Limiter.attrs, Attrs.merge, mkLimiterKnown,
      mkLimiter, Jitter.truthy, CONSUME_TOKENS]
  · intro hcon
    exact Jitter.noConfusion hcon

/-- C10: `Limiter.new` always rebuilds the Token Store: the `attrs` property
excludes the `limiter` field, so `Limiter(**new_attrs)` runs `__post_init__`
with `limiter=None` and constructs a fresh `TokenBucket` — for every override
set (empty, or naming any of the fields), the returned Limiter's store handle
is the freshly allocated one and differs from the original's. -/
theorem c10_new_always_builds_fresh_store (self : Limiter) (attrs : CallAttrs)
    (nextId : ℕ) (h : self.limiter.id < nextId) :
    (self.new attrs nextId).1.limiter.id = nextId ∧
    (self.new attrs nextId).1.limiter ≠ self.limiter ∧
    (self.new attrs nextId).2 = nextId + 1 := by
  refine ⟨rfl, ?_, rfl⟩
  intro heq
  have h2 : nextId = self.limiter.id := by
    have h3 : (self.new attrs nextId).1.limiter.id = self.limiter.id := by rw [heq]
    rw [← h3]
    rfl
  omega

/-- C10 witness: deriving with `new` (empty overrides) from a limiter whose
store has identity `0`, with allocation counter `1`, yields a limiter holding
the fresh store `1`, distinct from the original store. -/
theorem c10_new_always_builds_fresh_store_witness :
    (Limiter.limiter ⟨2, 3, 1, BucketName.bytes DEFAULT_BUCKET, ⟨0, 2, 3⟩, Jitter.bool false, 1000⟩).id < 1 ∧
    ((Limiter.new ⟨2, 3, 1, BucketName.bytes DEFAULT_BUCKET, ⟨0, 2, 3⟩, Jitter.bool false, 1000⟩
        ⟨none, none, none, none, none, none⟩ 1).1.limiter.id = 1 ∧
      (Limiter.new ⟨2, 3, 1, BucketName.bytes DEFAULT_BUCKET, ⟨0, 2, 3⟩, Jitter.bool false, 1000⟩
        ⟨none, none, none, none, none, none⟩ 1).1.limiter ≠
        Limiter.limiter ⟨2, 3, 1, BucketName.bytes DEFAULT_BUCKET, ⟨0, 2, 3⟩, Jitter.bool false, 1000⟩ ∧
      (Limiter.new ⟨2, 3, 1, BucketName.bytes DEFAULT_BUCKET, ⟨0, 2, 3⟩, Jitter.bool false, 1000⟩
        ⟨none, none, none, none, none, none⟩ 1).2 = 1 + 1) :=
  ⟨Nat.zero_lt_one,
    c10_new_always_builds_fresh_store _ ⟨none, none, none, none, none, none⟩ 1 Nat.zero_lt_one⟩

/-- C8: when the admission loop of a decorated call admits through a
successful consume and the wrapped operation then raises, the error
propagates unchanged, the operation is invoked exactly once (never retried),
the consumed tokens are not refunded — the store keeps exactly `amount`
fewer tokens in the bucket — and the context-manager exits (`__exit__` and
`__aexit__`, both `pass`) change no state and do not suppress the error. -/
theorem c8_wrapped_failure_propagates_without_refund (α : Type) (fuel : ℕ)
    (s : Store) (bucket : List UInt8) (amount : ℚ) (jitter : Jitter) (units : ℚ)
    (rnds : List (Dir × ℤ)) (r : LoopResult) (e : PyErr)
    (hloop : limitRateLoop fuel s bucket amount jitter units rnds = some r)
    (hcons : r.consumed = true) :
    wrappedCall α fuel s bucket amount jitter units rnds (Except.error e) =
      some (Except.error e, r.store, 1) ∧
    r.store.getTokenCount bucket = s.getTokenCount bucket - amount ∧
    contextExit r.store = (r.store, false) ∧
    contextAexit r.store = (r.store, false) := by
  refine ⟨?_, ?_, rfl, rfl⟩
  · unfold wrappedCall
    rw [hloop]
  · rcases limitRateLoop_store_spec fuel s bucket amount jitter units rnds r hloop with
      ⟨h1, h2, h3⟩ | ⟨h1, h2⟩
    · rw [h3, Store.getTokenCount_setTokens]
    · rw [hcons] at h1
      simp at h1

/-- C8 witness: a concrete decorated call on a fresh store: admission
consumes one token (3 down to 2), the operation raises, the error comes back
unchanged, the op ran once, and the exits are no-ops. -/
theorem c8_wrapped_failure_propagates_without_refund_witness :
    (limitRateLoop 1 ⟨2, 3, []⟩ DEFAULT_BUCKET 1 DEFAULT_JITTER 1000 [] =
      some ⟨true, 1, [], ⟨2, 3, [(DEFAULT_BUCKET, 2)]⟩⟩) ∧
    ((⟨true, 1, [], ⟨2, 3, [(DEFAULT_BUCKET, 2)]⟩⟩ : LoopResult).consumed = true) ∧
    (wrappedCall ℕ 1 ⟨2, 3, []⟩ DEFAULT_BUCKET 1 DEFAULT_JITTER 1000 []
        (Except.error (PyErr.userError "boom")) =
      some (Except.error (PyErr.userError "boom"), ⟨2, 3, [(DEFAULT_BUCKET, 2)]⟩, 1) ∧
      Store.getTokenCount (⟨2, 3, [(DEFAULT_BUCKET, 2)]⟩ : Store) DEFAULT_BUCKET =
        Store.getTokenCount ⟨2, 3, []⟩ DEFAULT_BUCKET - 1 ∧
      contextExit ⟨2, 3, [(DEFAULT_BUCKET, 2)]⟩ = (⟨2, 3, [(DEFAULT_BUCKET, 2)]⟩, false) ∧
      contextAexit ⟨2, 3, [(DEFAULT_BUCKET, 2)]⟩ = (⟨2, 3, [(DEFAULT_BUCKET, 2)]⟩, false)) := by
  have p1 : limitRateLoop 1 ⟨2, 3, []⟩ DEFAULT_BUCKET 1 DEFAULT_JITTER 1000 [] =
      some ⟨true, 1, [], ⟨2, 3, [(DEFAULT_BUCKET, 2)]⟩⟩ := by
    norm_num [limitRateLoop, Store.consume, Store.setTokens, Store.getTokenCount, List.lookup]
  exact ⟨p1, rfl,
    c8_wrapped_failure_propagates_without_refund ℕ 1 ⟨2, 3, []⟩ DEFAULT_BUCKET 1
      DEFAULT_JITTER 1000 [] ⟨true, 1, [], ⟨2, 3, [(DEFAULT_BUCKET, 2)]⟩⟩
      (PyErr.userError "boom") p1 rfl⟩
